import Mathlib

/-!
# TickerQ documentation site: configuration, sidebar and landing page

A shallow embedding of the three source files of the site

* `docusaurus.config.js` : the exported `config` object,
* `sidebars.js`          : the exported `sidebars` object,
* `src/pages/index.js`   : the `Home` component,

followed by the properties checked against them.

JavaScript object and array literals are embedded as values of `JSValue`
(properties in source order), React elements as values of `Element`.
The two things the modules read from their surroundings are parameters:
the current date (`new Date()`) and the module resolver (`require.resolve`).
-/

namespace TickerQDocs

/-! ## JavaScript values -/

/-- The JavaScript values that object and array literals of the site are built from. -/
inductive JSValue where
  | null : JSValue
  | bool (b : Bool) : JSValue
  | num (n : Int) : JSValue
  | str (s : String) : JSValue
  | arr (elems : List JSValue) : JSValue
  | obj (props : List (String × JSValue)) : JSValue

namespace JSValue

/-- Property lookup in the property list of an object literal. When a key is
written twice the later one wins, as in JavaScript. -/
def getProp (k : String) : List (String × JSValue) → Option JSValue
  | [] => none
  | (k', v) :: rest =>
    match getProp k rest with
    | some w => some w
    | none => if k' = k then some v else none

/-- The expression `v[k]` or `v.k`; `none` stands for `undefined`. -/
def get (v : JSValue) (k : String) : Option JSValue :=
  match v with
  | obj ps => getProp k ps
  | _ => none

/-- The chained access `v.k1.k2...`. -/
def getPath (v : JSValue) : List String → Option JSValue
  | [] => some v
  | k :: ks =>
    match v.get k with
    | some w => getPath w ks
    | none => none

/-- The keys of an object literal, in source order (`Object.keys`). -/
def keys : JSValue → List String
  | obj ps => ps.map Prod.fst
  | _ => []

/-- The elements of an array value; anything else has none. -/
def elems? : Option JSValue → List JSValue
  | some (arr xs) => xs
  | _ => []

/-- The value with the property at the end of the given path removed
(`delete v.k1.k2...kn`); the rest of the value is kept as it is. -/
def erasePath : List String → JSValue → JSValue
  | [], v => v
  | [k], obj ps => obj (ps.filter fun p => p.1 ≠ k)
  | k :: k2 :: ks, obj ps =>
    obj (ps.map fun p => if p.1 = k then (p.1, erasePath (k2 :: ks) p.2) else p)
  | _ :: _, v => v

end JSValue

open JSValue

/-! ## The environment of the configuration module -/

/-- The local-time fields of a JavaScript `Date`, as its getters return them. -/
structure JSDate where
  fullYear : Int
  month : Nat
  date : Nat
  hours : Nat
  minutes : Nat
  seconds : Nat
  milliseconds : Nat
  deriving DecidableEq

/-- The method `Date.prototype.getFullYear`. -/
def JSDate.getFullYear (d : JSDate) : Int := d.fullYear

/-- A module resolver for a site checked out at `siteDir`: the request `./x`
resolves to `siteDir/x`. Used as a concrete `require.resolve`. -/
def resolveFrom (siteDir : String) (request : String) : String :=
  siteDir ++ "/" ++ request.drop 2

/-! ## `docusaurus.config.js` -/

/-- The object exported by `docusaurus.config.js`. `requireResolve` is Node's
`require.resolve` as seen from the module, `now` is the value of `new Date()`
when the module is evaluated. The `themes` binding imported at the top of the
module is not used by the object. -/
def config (requireResolve : String → String) (now : JSDate) : JSValue :=
  .obj [
    ("title", .str "TickerQ Demo Documentation"),
    ("tagline", .str "Background Job Processing with TickerQ in .NET"),
    ("favicon", .str "img/favicon.ico"),
    ("url", .str "https://EbrahimDawoud.github.io"),
    ("baseUrl", .str "/"),
    ("organizationName", .str "EbrahimDawoud"),
    ("projectName", .str "TickerQ-Docs"),
    ("onBrokenLinks", .str "throw"),
    ("onBrokenMarkdownLinks", .str "warn"),
    ("i18n", .obj [
      ("defaultLocale", .str "en"),
      ("locales", .arr [.str "en"])]),
    ("presets", .arr [
      .arr [
        .str "classic",
        .obj [
          ("docs", .obj [
            ("sidebarPath", .str (requireResolve "./sidebars.js")),
            ("editUrl", .str "https://github.com/EbrahimDawoud/TickerQ-Docs/tree/master/")]),
          ("theme", .obj [
            ("customCss", .str (requireResolve "./src/css/custom.css"))])]]]),
    ("themeConfig", .obj [
      ("image", .str "img/docusaurus-social-card.jpg"),
      ("navbar", .obj [
        ("title", .str "TickerQ Demo"),
        ("logo", .obj [
          ("alt", .str "TickerQ Logo"),
          ("src", .str "img/logo.png")]),
        ("items", .arr [
          .obj [
            ("type", .str "docSidebar"),
            ("sidebarId", .str "tutorialSidebar"),
            ("position", .str "left"),
            ("label", .str "Docs")],
          .obj [
            ("href", .str "https://github.com/EbrahimDawoud/TickerQ-Docs"),
            ("label", .str "GitHub"),
            ("position", .str "right")]])]),
      ("footer", .obj [
        ("style", .str "dark"),
        ("links", .arr [
          .obj [
            ("title", .str "Docs"),
            ("items", .arr [
              .obj [
                ("label", .str "Getting Started"),
                ("to", .str "/docs/intro")]])],
          .obj [
            ("title", .str "Community"),
            ("items", .arr [
              .obj [
                ("label", .str "Stack Overflow"),
                ("href", .str "https://stackoverflow.com/questions/tagged/docusaurus")],
              .obj [
                ("label", .str "Discord"),
                ("href", .str "https://discordapp.com/invite/docusaurus")],
              .obj [
                ("label", .str "Twitter"),
                ("href", .str "https://twitter.com/docusaurus")]])],
          .obj [
            ("title", .str "More"),
            ("items", .arr [
              .obj [
                ("label", .str "GitHub"),
                ("href", .str "https://github.com/EbrahimDawoud/TickerQ-Docs")]])]]),
        ("copyright", .str ("Copyright © " ++ toString now.getFullYear
            ++ " TickerQ Demo. Built with Docusaurus."))]),
      ("prism", .obj [
        ("additionalLanguages", .arr [.str "csharp", .str "json", .str "bash"])])])]

/-- The path of the copyright line inside the configuration object. -/
def copyrightPath : List String := ["themeConfig", "footer", "copyright"]

/-- The top-level keys of a configuration object that begin with `onBroken`. -/
def brokenLinkSwitches (cfg : JSValue) : List String :=
  cfg.keys.filter fun k => "onBroken".toList.isPrefixOf k.toList

/-- The entries of `themeConfig.navbar.items`. -/
def navbarItems (cfg : JSValue) : List JSValue :=
  elems? (cfg.getPath ["themeConfig", "navbar", "items"])

/-- The `to` targets of the footer: every item of every column of
`themeConfig.footer.links` that has a string `to` property. -/
def footerToTargets (cfg : JSValue) : List String :=
  (elems? (cfg.getPath ["themeConfig", "footer", "links"])).flatMap fun column =>
    (elems? (column.get "items")).filterMap fun item =>
      match item.get "to" with
      | some (.str t) => some t
      | _ => none

/-! ## `sidebars.js` -/

/-- The object exported by `sidebars.js`. -/
def sidebars : JSValue :=
  .obj [
    ("tutorialSidebar", .arr [
      .str "intro",
      .obj [
        ("type", .str "category"),
        ("label", .str "Getting Started"),
        ("items", .arr [.str "installation", .str "configuration"])],
      .obj [
        ("type", .str "category"),
        ("label", .str "Job Types"),
        ("items", .arr [.str "cron-jobs", .str "time-jobs"])],
      .obj [
        ("type", .str "category"),
        ("label", .str "Advanced Features"),
        ("items", .arr [.str "exception-handling", .str "dashboard"])],
      .str "api-reference"])]

/-- The recognized shape of a sidebar entry: a document identifier string, or
a category object with `type: "category"`, a string `label` and an `items`
array whose entries have the recognized shape again. -/
inductive SidebarEntry : JSValue → Prop where
  | doc (id : String) : SidebarEntry (.str id)
  | category (ps : List (String × JSValue)) (label : String) (items : List JSValue) :
      getProp "type" ps = some (.str "category") →
      getProp "label" ps = some (.str label) →
      getProp "items" ps = some (.arr items) →
      (∀ x ∈ items, SidebarEntry x) →
      SidebarEntry (.obj ps)

mutual
/-- The document identifiers below a sidebar entry, depth first, in order:
a string is a document, an array is walked left to right, a category object
contributes what is below its `items`. -/
def docIds : JSValue → List String
  | .str id => [id]
  | .arr xs => docIdsOfList xs
  | .obj ps => docIdsOfProps ps
  | _ => []
/-- The document identifiers below the entries of an array. -/
def docIdsOfList : List JSValue → List String
  | [] => []
  | x :: xs => docIds x ++ docIdsOfList xs
/-- The document identifiers below the `items` property of a category. -/
def docIdsOfProps : List (String × JSValue) → List String
  | [] => []
  | (k, v) :: ps => (if k = "items" then docIds v else []) ++ docIdsOfProps ps
end

/-- The depth-first flattening of the sidebar stored under `sidebarId`. -/
def sidebarDocIds (sbs : JSValue) (sidebarId : String) : List String :=
  docIdsOfList (elems? (sbs.get sidebarId))

/-! ## `src/pages/index.js` -/

/-- A React element tree as JSX builds it: text, or an element with its type
(a host tag or a component name), its props and its children. -/
inductive Element where
  | text (s : String) : Element
  | node (type : String) (props : List (String × String)) (children : List Element) : Element

namespace Element

/-- The type of an element; text has none. -/
def type? : Element → Option String
  | node t _ _ => some t
  | text _ => none

/-- The props of an element. -/
def props : Element → List (String × String)
  | node _ ps _ => ps
  | text _ => []

/-- The children of an element. -/
def children : Element → List Element
  | node _ _ cs => cs
  | text _ => []

/-- The value of one prop of an element. -/
def prop (k : String) (e : Element) : Option String :=
  (e.props.find? fun p => p.1 = k).map Prod.snd

/-- The props of an element other than `k`. -/
def propsExcept (k : String) (e : Element) : List (String × String) :=
  e.props.filter fun p => p.1 ≠ k

/-- The text directly inside an element, concatenated. -/
def ownText (e : Element) : String :=
  String.join (e.children.filterMap fun c =>
    match c with
    | text s => some s
    | node _ _ _ => none)

mutual
/-- The elements of a tree that have the given type, in document order. -/
def byType (t : String) : Element → List Element
  | text _ => []
  | node t' ps cs => (if t' = t then [node t' ps cs] else []) ++ byTypeList t cs
/-- The elements of the given type in a list of trees. -/
def byTypeList (t : String) : List Element → List Element
  | [] => []
  | c :: cs => byType t c ++ byTypeList t cs
end

end Element

open Element

/-- The site configuration as the framework hands it to components. Only
`title` is read by the page; the other fields stand for the rest of it. -/
structure SiteConfig where
  title : String
  tagline : String
  url : String
  baseUrl : String
  others : JSValue

/-- The value returned by `useDocusaurusContext()`. -/
structure DocusaurusContext where
  siteConfig : SiteConfig
  siteMetadata : JSValue
  globalData : JSValue
  i18n : JSValue
  codeTranslations : JSValue

/-- The component `Home` of `src/pages/index.js`; `ctx` is what
`useDocusaurusContext()` returns in the render. -/
def Home (ctx : DocusaurusContext) : Element :=
  let siteConfig := ctx.siteConfig
  .node "Layout"
    [("title", "Hello from " ++ siteConfig.title),
     ("description", "TickerQ Demo Documentation")]
    [.node "div" [("className", "tickerq-hero")]
      [.node "div" [("className", "container")]
        [.node "h1" [("className", "hero__title")] [.text "TickerQ Demo Documentation"],
         .node "p" [("className", "hero__subtitle")]
           [.text "Learn how to implement background job processing with TickerQ in .NET"],
         .node "div" []
           [.node "Link"
             [("className", "button button--secondary button--lg"),
              ("to", "/docs/intro")]
             [.text "Get Started - 5min ⏱️"]]]],
     .node "main" []
      [.node "div" [("className", "container")]
        [.node "div" [("className", "row")]
          [.node "div" [("className", "col col--4")]
            [.node "div" [("className", "tickerq-feature")]
              [.node "h3" [] [.text "🚀 Easy Setup"],
               .node "p" []
                 [.text "Get TickerQ running in minutes with our step-by-step guide."]]],
           .node "div" [("className", "col col--4")]
            [.node "div" [("className", "tickerq-feature")]
              [.node "h3" [] [.text "⏰ Flexible Scheduling"],
               .node "p" []
                 [.text "Schedule jobs with cron expressions or one-time execution."]]],
           .node "div" [("className", "col col--4")]
            [.node "div" [("className", "tickerq-feature")]
              [.node "h3" [] [.text "📊 Dashboard"],
               .node "p" []
                 [.text "Monitor and manage your jobs with the built-in dashboard."]]]]]]]

/-- The `to` targets of the `Link` elements of a tree, in document order. -/
def linkTargets (e : Element) : List String :=
  (byType "Link" e).filterMap (prop "to")

/-- The feature blocks of a page: for every element with class
`tickerq-feature`, its heading and its paragraph. -/
def featureBlocks (e : Element) : List (List String × List String) :=
  ((byType "div" e).filter fun d => prop "className" d = some "tickerq-feature").map fun d =>
    ((byType "h3" d).map ownText, (byType "p" d).map ownText)

/-! ## Sample inputs -/

/-- The last millisecond of 2024, local time. -/
def endOf2024 : JSDate := ⟨2024, 11, 31, 23, 59, 59, 999⟩

/-- The first millisecond of 2025, local time. -/
def startOf2025 : JSDate := ⟨2025, 0, 1, 0, 0, 0, 0⟩

/-- Noon on 15 June 2025, local time. -/
def midJune2025 : JSDate := ⟨2025, 5, 15, 12, 0, 0, 0⟩

/-- The context of a render of the site built from `config`. -/
def siteContext : DocusaurusContext :=
  { siteConfig :=
      { title := "TickerQ Demo Documentation"
        tagline := "Background Job Processing with TickerQ in .NET"
        url := "https://EbrahimDawoud.github.io"
        baseUrl := "/"
        others := .null }
    siteMetadata := .null
    globalData := .null
    i18n := .obj [("currentLocale", .str "en")]
    codeTranslations := .obj [] }

/-- The context of a render of the same site in another locale, with another tagline. -/
def otherContext : DocusaurusContext :=
  { siteConfig :=
      { title := "TickerQ Demo Documentation"
        tagline := "Jobs"
        url := "https://example.org"
        baseUrl := "/manual/"
        others := .obj [("favicon", .str "img/favicon.ico")] }
    siteMetadata := .obj []
    globalData := .null
    i18n := .obj [("currentLocale", .str "fr")]
    codeTranslations := .obj [] }

/-! ## Properties of the configuration -/

/-- C1, as stated, fails: evaluated in the last millisecond of 2024 and in
the first millisecond of 2025 the module exports different configuration
objects, because the copyright line carries the year of `new Date()`. -/
theorem config_differs_across_new_year :
    (config (resolveFrom "/srv/site") endOf2024).getPath copyrightPath
      = some (.str "Copyright © 2024 TickerQ Demo. Built with Docusaurus.") ∧
    (config (resolveFrom "/srv/site") startOf2025).getPath copyrightPath
      = some (.str "Copyright © 2025 TickerQ Demo. Built with Docusaurus.") ∧
    config (resolveFrom "/srv/site") endOf2024 ≠ config (resolveFrom "/srv/site") startOf2025 := by
  have h24 : (config (resolveFrom "/srv/site") endOf2024).getPath copyrightPath
      = some (.str "Copyright © 2024 TickerQ Demo. Built with Docusaurus.") := rfl
  have h25 : (config (resolveFrom "/srv/site") startOf2025).getPath copyrightPath
      = some (.str "Copyright © 2025 TickerQ Demo. Built with Docusaurus.") := rfl
  refine ⟨h24, h25, ?_⟩
  intro h
  have hc := congrArg (fun v => JSValue.getPath v copyrightPath) h
  simp only [h24, h25] at hc
  injection hc with hc
  injection hc with hc
  exact absurd hc (by decide)

/-- C1, amended: the configuration depends on the evaluation time only through
the year inside `themeConfig.footer.copyright`. For any two evaluation times
the two objects agree once that one property is removed (and only it is
removed), the copyright line is the fixed text around the year of the date,
and two evaluations in the same year give the same object, copyright
included. -/
theorem config_static_outside_copyright (requireResolve : String → String) (d₁ d₂ : JSDate) :
    erasePath copyrightPath (config requireResolve d₁)
      = erasePath copyrightPath (config requireResolve d₂) ∧
    (erasePath copyrightPath (config requireResolve d₁)).getPath copyrightPath = none ∧
    (erasePath copyrightPath (config requireResolve d₁)).getPath ["themeConfig", "footer", "style"]
      = some (.str "dark") ∧
    (config requireResolve d₁).getPath copyrightPath
      = some (.str ("Copyright © " ++ toString d₁.getFullYear
          ++ " TickerQ Demo. Built with Docusaurus.")) ∧
    (d₁.getFullYear = d₂.getFullYear → config requireResolve d₁ = config requireResolve d₂) := by
  refine ⟨rfl, rfl, rfl, rfl, ?_⟩
  intro h
  unfold config
  rw [h]

/-- Witness for C1 amended: the first millisecond of 2025 and noon of 15 June
2025 are different evaluation times in the same year, and give the same object. -/
theorem config_static_outside_copyright_witness :
    startOf2025 ≠ midJune2025 ∧
    config (resolveFrom "/srv/site") startOf2025 = config (resolveFrom "/srv/site") midJune2025 :=
  ⟨by decide,
   (config_static_outside_copyright (resolveFrom "/srv/site") startOf2025 midJune2025).2.2.2.2
     (by decide)⟩

/-- C3: the configuration sets `onBrokenLinks` to `throw` and
`onBrokenMarkdownLinks` to `warn`, and these two are the only top-level keys
that begin with `onBroken`. -/
theorem broken_link_policy (requireResolve : String → String) (now : JSDate) :
    (config requireResolve now).get "onBrokenLinks" = some (.str "throw") ∧
    (config requireResolve now).get "onBrokenMarkdownLinks" = some (.str "warn") ∧
    brokenLinkSwitches (config requireResolve now)
      = ["onBrokenLinks", "onBrokenMarkdownLinks"] :=
  ⟨rfl, rfl, rfl⟩

/-- C5: each key of the build-time contract is present on `config`: `title`,
`tagline`, `url`, `baseUrl`, `organizationName` and `projectName` are strings,
`onBrokenLinks` is present, `presets` is a list, `i18n` and `themeConfig` are
objects. -/
theorem config_contract (requireResolve : String → String) (now : JSDate) :
    (∃ s, (config requireResolve now).get "title" = some (.str s)) ∧
    (∃ s, (config requireResolve now).get "tagline" = some (.str s)) ∧
    (∃ s, (config requireResolve now).get "url" = some (.str s)) ∧
    (∃ s, (config requireResolve now).get "baseUrl" = some (.str s)) ∧
    (∃ s, (config requireResolve now).get "organizationName" = some (.str s)) ∧
    (∃ s, (config requireResolve now).get "projectName" = some (.str s)) ∧
    (∃ v, (config requireResolve now).get "onBrokenLinks" = some v) ∧
    (∃ xs, (config requireResolve now).get "presets" = some (.arr xs)) ∧
    (∃ ps, (config requireResolve now).get "i18n" = some (.obj ps)) ∧
    (∃ ps, (config requireResolve now).get "themeConfig" = some (.obj ps)) :=
  ⟨⟨_, rfl⟩, ⟨_, rfl⟩, ⟨_, rfl⟩, ⟨_, rfl⟩, ⟨_, rfl⟩, ⟨_, rfl⟩, ⟨_, rfl⟩, ⟨_, rfl⟩,
   ⟨_, rfl⟩, ⟨_, rfl⟩⟩

/-- C10: `i18n.locales` is a non-empty list of strings without duplicates and
`i18n.defaultLocale` is one of them. -/
theorem i18n_consistent (requireResolve : String → String) (now : JSDate) :
    ∃ (locales : List String) (defaultLocale : String),
      (config requireResolve now).getPath ["i18n", "locales"]
        = some (.arr (locales.map JSValue.str)) ∧
      (config requireResolve now).getPath ["i18n", "defaultLocale"]
        = some (.str defaultLocale) ∧
      locales ≠ [] ∧ locales.Nodup ∧ defaultLocale ∈ locales :=
  ⟨["en"], "en", rfl, rfl, by simp, by simp, by simp⟩

/-- C9: the navbar has an item of type `docSidebar`, and every navbar item of
that type has a string `sidebarId` that is a key of `sidebars` whose value is a
non-empty array. -/
theorem docSidebar_items_resolve (requireResolve : String → String) (now : JSDate) :
    (∃ item ∈ navbarItems (config requireResolve now),
      item.get "type" = some (.str "docSidebar")) ∧
    ∀ item ∈ navbarItems (config requireResolve now),
      item.get "type" = some (.str "docSidebar") →
      ∃ (sidebarId : String) (entries : List JSValue),
        item.get "sidebarId" = some (.str sidebarId) ∧
        sidebars.get sidebarId = some (.arr entries) ∧ entries ≠ [] := by
  have hitems : navbarItems (config requireResolve now) =
      [.obj [("type", .str "docSidebar"), ("sidebarId", .str "tutorialSidebar"),
             ("position", .str "left"), ("label", .str "Docs")],
       .obj [("href", .str "https://github.com/EbrahimDawoud/TickerQ-Docs"),
             ("label", .str "GitHub"), ("position", .str "right")]] := rfl
  rw [hitems]
  refine ⟨⟨_, List.mem_cons_self _ _, rfl⟩, ?_⟩
  intro item hmem htype
  simp only [List.mem_cons, List.mem_singleton, List.not_mem_nil, or_false] at hmem
  rcases hmem with rfl | rfl
  · exact ⟨"tutorialSidebar", _, rfl, rfl, List.cons_ne_nil _ _⟩
  · simp [JSValue.get, getProp] at htype

/-- Witness for C9: the `Docs` item of the navbar, at a concrete resolver and
date, names the non-empty sidebar `tutorialSidebar`. -/
theorem docSidebar_items_resolve_witness :
    ∃ (sidebarId : String) (entries : List JSValue),
      (JSValue.obj [("type", .str "docSidebar"), ("sidebarId", .str "tutorialSidebar"),
          ("position", .str "left"), ("label", .str "Docs")]).get "sidebarId"
        = some (.str sidebarId) ∧
      sidebars.get sidebarId = some (.arr entries) ∧ entries ≠ [] :=
  (docSidebar_items_resolve (resolveFrom "/srv/site") midJune2025).2 _
    (List.mem_cons_self _ _) rfl

/-! ## Properties of the sidebar -/

/-- C2: `sidebars.tutorialSidebar` is an array of five entries, and every
entry has the recognized shape at every depth: a document identifier string,
or a category object with type `category`, a string label and an `items`
array of entries of the same shape. -/
theorem tutorialSidebar_shape :
    ∃ entries : List JSValue,
      sidebars.get "tutorialSidebar" = some (.arr entries) ∧
      entries.length = 5 ∧
      ∀ x ∈ entries, SidebarEntry x := by
  refine ⟨_, rfl, rfl, ?_⟩
  intro x hx
  simp only [List.mem_cons, List.mem_singleton, List.not_mem_nil, or_false] at hx
  rcases hx with rfl | rfl | rfl | rfl | rfl
  · exact .doc _
  · refine .category _ "Getting Started" [.str "installation", .str "configuration"]
      rfl rfl rfl ?_
    intro y hy
    simp only [List.mem_cons, List.mem_singleton, List.not_mem_nil, or_false] at hy
    rcases hy with rfl | rfl <;> exact .doc _
  · refine .category _ "Job Types" [.str "cron-jobs", .str "time-jobs"] rfl rfl rfl ?_
    intro y hy
    simp only [List.mem_cons, List.mem_singleton, List.not_mem_nil, or_false] at hy
    rcases hy with rfl | rfl <;> exact .doc _
  · refine .category _ "Advanced Features" [.str "exception-handling", .str "dashboard"]
      rfl rfl rfl ?_
    intro y hy
    simp only [List.mem_cons, List.mem_singleton, List.not_mem_nil, or_false] at hy
    rcases hy with rfl | rfl <;> exact .doc _
  · exact .doc _

/-- Witness for C2: the category `Job Types`, the third entry of the sidebar,
has the recognized shape. -/
theorem tutorialSidebar_shape_witness :
    SidebarEntry (.obj [("type", .str "category"), ("label", .str "Job Types"),
      ("items", .arr [.str "cron-jobs", .str "time-jobs"])]) := by
  obtain ⟨entries, hget, -, hall⟩ := tutorialSidebar_shape
  have he : entries = elems? (sidebars.get "tutorialSidebar") := by rw [hget]; rfl
  subst he
  exact hall _ (List.mem_cons_of_mem _ (List.mem_cons_of_mem _ (List.mem_cons_self _ _)))

/-- C7: the depth-first flattening of `sidebars.tutorialSidebar` is the list
intro, installation, configuration, cron-jobs, time-jobs, exception-handling,
dashboard, api-reference, and no identifier occurs in it twice. -/
theorem tutorialSidebar_order :
    sidebarDocIds sidebars "tutorialSidebar" =
      ["intro", "installation", "configuration", "cron-jobs", "time-jobs",
       "exception-handling", "dashboard", "api-reference"] ∧
    (sidebarDocIds sidebars "tutorialSidebar").Nodup :=
  ⟨by decide, by decide⟩

/-! ## Properties of the landing page -/

/-- C4: `Home` renders a `Layout` whose `title` prop is `Hello from ` followed
by `siteConfig.title` and whose `description` is fixed. For any two contexts the
other props and all children (hero text, link, the three feature blocks) are
the same, and two contexts with the same `siteConfig.title` give the same
tree. -/
theorem Home_declarative (c₁ c₂ : DocusaurusContext) :
    (Home c₁).type? = some "Layout" ∧
    (Home c₁).prop "title" = some ("Hello from " ++ c₁.siteConfig.title) ∧
    (Home c₁).prop "description" = some "TickerQ Demo Documentation" ∧
    (Home c₁).propsExcept "title" = (Home c₂).propsExcept "title" ∧
    (Home c₁).children = (Home c₂).children ∧
    ((byType "h1" (Home c₁)).map ownText = ["TickerQ Demo Documentation"]) ∧
    featureBlocks (Home c₁) =
      [(["🚀 Easy Setup"], ["Get TickerQ running in minutes with our step-by-step guide."]),
       (["⏰ Flexible Scheduling"],
        ["Schedule jobs with cron expressions or one-time execution."]),
       (["📊 Dashboard"], ["Monitor and manage your jobs with the built-in dashboard."])] ∧
    (c₁.siteConfig.title = c₂.siteConfig.title → Home c₁ = Home c₂) := by
  refine ⟨rfl, rfl, rfl, rfl, rfl, rfl, rfl, ?_⟩
  intro h
  simp only [Home, h]

/-- Witness for C4: two contexts that differ in tagline, url, base url, locale
and metadata but have the same title render the same tree. -/
theorem Home_declarative_witness :
    siteContext.siteConfig.tagline ≠ otherContext.siteConfig.tagline ∧
    Home siteContext = Home otherContext :=
  ⟨by decide, (Home_declarative siteContext otherContext).2.2.2.2.2.2.2 rfl⟩

/-! ## Links between the three files -/

/-- C8: the footer has exactly one `to` target and the landing page exactly one
`Link` target, both `/docs/intro`; every such target is `config.baseUrl`
followed by `docs/` followed by a document identifier of the flattened
`tutorialSidebar`. -/
theorem internal_links_resolve (requireResolve : String → String) (now : JSDate)
    (ctx : DocusaurusContext) :
    footerToTargets (config requireResolve now) = ["/docs/intro"] ∧
    linkTargets (Home ctx) = ["/docs/intro"] ∧
    ∀ t ∈ footerToTargets (config requireResolve now) ++ linkTargets (Home ctx),
      ∃ (baseUrl : String) (id : String),
        (config requireResolve now).get "baseUrl" = some (.str baseUrl) ∧
        id ∈ sidebarDocIds sidebars "tutorialSidebar" ∧
        t = baseUrl ++ "docs/" ++ id := by
  have hf : footerToTargets (config requireResolve now) = ["/docs/intro"] := rfl
  have hl : linkTargets (Home ctx) = ["/docs/intro"] := rfl
  refine ⟨hf, hl, ?_⟩
  intro t ht
  rw [hf, hl] at ht
  simp only [List.cons_append, List.nil_append, List.mem_cons, List.mem_singleton,
    List.not_mem_nil, or_false, or_self] at ht
  subst ht
  exact ⟨"/", "intro", rfl, by decide, by decide⟩

/-- Witness for C8: at a concrete resolver, date and context, the target
`/docs/intro` is the base url, `docs/` and a document of the sidebar. -/
theorem internal_links_resolve_witness :
    ∃ (baseUrl : String) (id : String),
      (config (resolveFrom "/srv/site") midJune2025).get "baseUrl" = some (.str baseUrl) ∧
      id ∈ sidebarDocIds sidebars "tutorialSidebar" ∧
      "/docs/intro" = baseUrl ++ "docs/" ++ id :=
  (internal_links_resolve (resolveFrom "/srv/site") midJune2025 siteContext).2.2 "/docs/intro"
    (by decide)

end TickerQDocs
